import Mathlib

/-!
Verification of the wifi-connect captive-portal provisioning workflow.

The development shallowly embeds the repository sources:
  * `ui/src/components/NetworkInfoForm.tsx` — the credential form schema,
    ui schema and enterprise classification;
  * `start-wifi-connect.sh` — the connectivity loop (probe, run one
    wifi-connect session, sleep);
  * the variant of the start script embedded next to the Dockerfile, whose
    sleep is conditional on the wifi-connect exit code;
  * the Access-Point Session Manager state machine, whose Rust source is not
    among the provided files, modelled from the design document where needed.
-/

namespace WifiConnect

/-! ## Data model of the credential form (NetworkInfoForm.tsx) -/

/-- One visible wireless network as consumed by the form: the TSX `Network`
type has an `ssid` and a `security` string (the form compares `security`
against the literal "enterprise"). -/
structure Network where
  ssid : String
  security : String
  deriving DecidableEq, Repr

/-- The form data (`NetworkInfo` in the TSX): the three schema properties,
each possibly absent. -/
structure NetworkInfo where
  ssid : Option String
  identity : Option String
  passphrase : Option String
  deriving DecidableEq, Repr

/-- From `getSchema`: the JSON schema object lists `required: ["ssid"]` and
nothing else as required. -/
def schemaRequired (_availableNetworks : List Network) : List String :=
  ["ssid"]

/-- From `getSchema`: the `ssid` property carries
`oneOf: availableNetworks.map((network) => ({const: network.ssid, ...}))`,
so the admissible constants are exactly the listed ssids, in order. -/
def ssidOneOfConsts (availableNetworks : List Network) : List String :=
  availableNetworks.map (fun network => network.ssid)

/-- Whether a named schema property is present in the submitted form data
(JSON-Schema `required` checks presence of the property). -/
def fieldPresent (data : NetworkInfo) : String → Bool
  | "ssid" => data.ssid.isSome
  | "identity" => data.identity.isSome
  | "passphrase" => data.passphrase.isSome
  | _ => false

/-- JSON-Schema validation of a submission against `getSchema`: every
property named in `required` must be present, and the `ssid` value, when
present, must satisfy the `oneOf` clause — exactly one of its `const`
branches matches. No other clause of `getSchema` constrains the data;
in particular `identity` and `passphrase` carry no `required` entry. -/
def validates (availableNetworks : List Network) (data : NetworkInfo) : Bool :=
  (schemaRequired availableNetworks).all (fieldPresent data) &&
    (match data.ssid with
     | none => true
     | some s => (ssidOneOfConsts availableNetworks).count s == 1)

/-- From `isEnterpriseNetwork` in the TSX: true when some listed network has
the selected ssid and security "enterprise" (`networks.some(...)`). The
selected ssid is optional, mirroring `selectedNetworkSsid?: string`. -/
def isEnterpriseNetwork (networks : List Network)
    (selectedNetworkSsid : Option String) : Bool :=
  networks.any (fun network =>
    some network.ssid == selectedNetworkSsid && network.security == "enterprise")

/-- From `getUiSchema`: the `identity` entry sets
`ui:widget: !isEnterprise ? "hidden" : undefined`; the widget override is
`some "hidden"` exactly when the selection is not enterprise, and absent
(`none`, the default visible text widget) otherwise. -/
def identityUiWidget (isEnterprise : Bool) : Option String :=
  if !isEnterprise then some "hidden" else none

/-- From `NetworkInfoForm`: the submit button receives
`disabled: availableNetworks.length <= 0`. -/
def submitButtonDisabled (availableNetworks : List Network) : Bool :=
  availableNetworks.length ≤ 0

/-- A sample enterprise network used by concrete evaluations. -/
def corpNet : Network := { ssid := "CorpNet", security := "enterprise" }

/-- A sample personal (wpa) network used by concrete evaluations. -/
def homeNet : Network := { ssid := "Home", security := "wpa" }

end WifiConnect

namespace WifiConnect

/-! ## Claims about the credential form -/

/-- C1 counterexample: the claim says a submission for an Enterprise network
lacking the identity field is rejected, and one for a non-Open network
lacking the passphrase is rejected. In the code, `getSchema` marks only
`ssid` as required, so a submission for the enterprise network "CorpNet"
carrying neither identity nor passphrase validates successfully. -/
theorem enterprise_submission_without_identity_accepted :
    validates [corpNet]
      { ssid := some "CorpNet", identity := none, passphrase := none } = true := by
  decide

/-- C1 amended: form validation requires only the `ssid` property — the
outcome of `validates` never depends on the `identity` or `passphrase`
fields, and a submission with no ssid is always rejected. Identity being
shown for enterprise selections is a ui-schema display choice
(`identityUiWidget`), not a validation requirement. -/
theorem validation_requires_only_ssid
    (nets : List Network) (s : Option String) (i i' p p' : Option String) :
    validates nets { ssid := s, identity := i, passphrase := p }
      = validates nets { ssid := s, identity := i', passphrase := p' }
    ∧ validates nets { ssid := none, identity := i, passphrase := p } = false := by
  constructor
  · cases s <;> simp [validates, schemaRequired, fieldPresent]
  · simp [validates, schemaRequired, fieldPresent]

/-- C6 counterexample: the claim says a manually typed ssid can be submitted
when no networks are visible. In the code, the submit button is disabled
whenever `availableNetworks.length <= 0`, so with an empty network list no
submission is possible at all. -/
theorem empty_list_submit_disabled :
    submitButtonDisabled [] = true := by
  decide

/-- C6 amended: a submission passing validation always carries an ssid equal
to one of the currently listed networks (the schema `oneOf` constraint), and
the submit button is disabled exactly when the network list is empty — so a
freely typed ssid with an empty list can never be submitted. -/
theorem ssid_must_be_listed (nets : List Network) (d : NetworkInfo) :
    (submitButtonDisabled nets = (nets.length == 0))
    ∧ (validates nets d = true →
        ∃ s, d.ssid = some s ∧ s ∈ ssidOneOfConsts nets) := by
  constructor
  · cases nets <;> simp [submitButtonDisabled]
  · intro hv
    cases hd : d.ssid with
    | none =>
        exfalso
        simp [validates, schemaRequired, fieldPresent, hd] at hv
    | some s =>
        refine ⟨s, rfl, ?_⟩
        simp [validates, schemaRequired, fieldPresent, hd] at hv
        have : 0 < (ssidOneOfConsts nets).count s := by omega
        exact List.count_pos_iff.mp this

/-- C6 witness: the amended theorem applied at a concrete input — a valid
submission for the one-element list `[homeNet]` indeed names a listed ssid. -/
theorem ssid_must_be_listed_witness :
    validates [homeNet]
        { ssid := some "Home", identity := none, passphrase := none } = true
    ∧ ∃ s, (some "Home" : Option String) = some s ∧ s ∈ ssidOneOfConsts [homeNet] :=
  ⟨by decide,
    (ssid_must_be_listed [homeNet]
      { ssid := some "Home", identity := none, passphrase := none }).2 (by decide)⟩

/-- C10: the identity field is rendered (no "hidden" widget override) exactly
when some listed network has the selected ssid and security "enterprise";
moreover, whenever two listed entries share an ssid and one of them is
enterprise, the selection is classified enterprise whatever the security of
the other entry. -/
theorem identity_field_iff_enterprise_ssid (nets : List Network) (s : String) :
    (identityUiWidget (isEnterpriseNetwork nets (some s)) = none ↔
      ∃ n, n ∈ nets ∧ n.ssid = s ∧ n.security = "enterprise")
    ∧ (∀ sec : String,
        isEnterpriseNetwork
          ({ ssid := s, security := "enterprise" } :: { ssid := s, security := sec } :: nets)
          (some s) = true) := by
  constructor
  · simp only [identityUiWidget]
    constructor
    · intro h
      by_cases he : isEnterpriseNetwork nets (some s) = true
      · simp only [isEnterpriseNetwork, List.any_eq_true] at he
        obtain ⟨n, hn, hcond⟩ := he
        have h1 : some n.ssid == some s := (Bool.and_eq_true _ _).mp hcond |>.1
        have h2 : n.security == "enterprise" := (Bool.and_eq_true _ _).mp hcond |>.2
        exact ⟨n, hn, by simpa using eq_of_beq h1, by simpa using eq_of_beq h2⟩
      · rw [Bool.not_eq_true] at he
        simp [he] at h
    · rintro ⟨n, hn, hssid, hsec⟩
      have : isEnterpriseNetwork nets (some s) = true := by
        simp only [isEnterpriseNetwork, List.any_eq_true]
        exact ⟨n, hn, by simp [hssid, hsec]⟩
      simp [this]
  · intro sec
    simp [isEnterpriseNetwork]

end WifiConnect

namespace WifiConnect

/-! ## The connectivity loop (start-wifi-connect.sh)

The script is a `while true` loop: `check_internet` runs
`wget --spider http://google.com` and returns its exit code; on exit 0 the
loop merely prints and sleeps, otherwise it runs
`./wifi-connect --portal-ssid $(hostname)` to completion and then sleeps.
Each loop iteration is driven by two externally supplied numbers: the wget
exit code and, when wifi-connect runs, its exit code. -/

/-- Connectivity status as the design document names it. -/
inductive ConnectivityStatus
  | Online
  | Offline
  deriving DecidableEq, Repr

/-- From `check_internet` and the test `[ $? -eq 0 ]` in the loop: wget exit
code 0 is the only outcome treated as having internet access; every other
exit code (DNS failure, refusal, timeout, ...) is treated as offline. -/
def checkConnectivity (wgetExit : Nat) : ConnectivityStatus :=
  if wgetExit = 0 then ConnectivityStatus.Online else ConnectivityStatus.Offline

/-- Observable events of one run of the loop: a connectivity probe, the start
of a wifi-connect session (carrying the `--portal-ssid` argument), the end of
a session (carrying its exit code), and a sleep. -/
inductive Event
  | probe (online : Bool)
  | sessionStart (portalSsid : String)
  | sessionEnd (exitCode : Nat)
  | sleep (seconds : Nat)
  deriving DecidableEq, Repr

/-- One iteration of the `while true` loop in `start-wifi-connect.sh`: probe;
if online, skip wifi-connect; otherwise run `./wifi-connect --portal-ssid
$(hostname)` as a blocking foreground command until it exits; finally
`sleep 10` unconditionally. -/
def iteration (hostname : String) (wgetExit wcExit : Nat) : List Event :=
  if wgetExit = 0 then
    [Event.probe true, Event.sleep 10]
  else
    [Event.probe false, Event.sessionStart hostname,
      Event.sessionEnd wcExit, Event.sleep 10]

/-- The trace of the loop over a finite list of iteration inputs
(wget exit code, wifi-connect exit code). -/
def loopTrace (hostname : String) : List (Nat × Nat) → List Event
  | [] => []
  | (wgetExit, wcExit) :: rest =>
      iteration hostname wgetExit wcExit ++ loopTrace hostname rest

/-- Checker for the session discipline of a trace, carrying the number of
currently active sessions: a session may start only when none is active, a
session end closes the single active session, and a connectivity probe may
happen only while no session is active (each session runs to completion
before the next probe). Acceptance forces the active count to stay within
{0, 1} throughout. -/
def loopInvAux : Nat → List Event → Bool
  | _, [] => true
  | n, Event.probe _ :: rest => n == 0 && loopInvAux n rest
  | n, Event.sessionStart _ :: rest => n == 0 && loopInvAux (n + 1) rest
  | n, Event.sessionEnd _ :: rest => n == 1 && loopInvAux (n - 1) rest
  | n, Event.sleep _ :: rest => loopInvAux n rest

/-- A trace is well sequenced when the checker accepts it starting from zero
active sessions. -/
def sessionsWellSequenced (t : List Event) : Bool :=
  loopInvAux 0 t

/-- Recognizer for session-start events. -/
def isSessionStart : Event → Bool
  | Event.sessionStart _ => true
  | _ => false

/-- Recognizer for session-end events. -/
def isSessionEnd : Event → Bool
  | Event.sessionEnd _ => true
  | _ => false

/-- Recognizer for sleep events. -/
def isSleep : Event → Bool
  | Event.sleep _ => true
  | _ => false

/-- Every session-start event of a trace advertises the given hostname as the
portal ssid. -/
def startedWithSsid (hostname : String) : Event → Bool
  | Event.sessionStart s => s == hostname
  | _ => true

/-- One loop iteration leaves the sequencing checker back at zero active
sessions: it contains either no session events or one balanced start/end
pair, preceded by a probe taken with no session active. -/
theorem loopInvAux_iteration (hostname : String) (wgetExit wcExit : Nat)
    (rest : List Event) :
    loopInvAux 0 (iteration hostname wgetExit wcExit ++ rest) =
      loopInvAux 0 rest := by
  unfold iteration
  split <;> simp [loopInvAux]

end WifiConnect

namespace WifiConnect

/-! ## Claims about the connectivity loop -/

/-- C2: over every sequence of probe and wifi-connect outcomes, the loop
trace is accepted by the session-sequencing checker: at most one
access-point session is active at any time, a new session starts only when
none is active, and every session runs to completion before the next probe. -/
theorem loop_sessions_never_overlap (hostname : String)
    (inputs : List (Nat × Nat)) :
    sessionsWellSequenced (loopTrace hostname inputs) = true := by
  induction inputs with
  | nil => rfl
  | cons head rest ih =>
      obtain ⟨wgetExit, wcExit⟩ := head
      unfold loopTrace sessionsWellSequenced
      rw [loopInvAux_iteration]
      exact ih

/-- C3: `checkConnectivity` reports `Online` exactly when the wget probe
exits 0 (a verified successful response), and `Offline` for every nonzero
exit code — DNS failure, connection refusal and timeout included. -/
theorem checkConnectivity_online_iff_probe_success (wgetExit : Nat) :
    (checkConnectivity wgetExit = ConnectivityStatus.Online ↔ wgetExit = 0)
    ∧ (checkConnectivity wgetExit = ConnectivityStatus.Offline ↔ wgetExit ≠ 0) := by
  unfold checkConnectivity
  by_cases h : wgetExit = 0 <;> simp [h]

/-- C7: in every loop iteration, a session starts (and ends) exactly when the
probe reported offline — zero sessions on `Online`, exactly one on
`Offline` — and the iteration respects the sequencing discipline, so the
session runs to completion before polling resumes. -/
theorem loop_iteration_session_iff_offline (hostname : String)
    (wgetExit wcExit : Nat) :
    ((iteration hostname wgetExit wcExit).countP isSessionStart =
        if checkConnectivity wgetExit = ConnectivityStatus.Online then 0 else 1)
    ∧ ((iteration hostname wgetExit wcExit).countP isSessionEnd =
        if checkConnectivity wgetExit = ConnectivityStatus.Online then 0 else 1)
    ∧ sessionsWellSequenced (iteration hostname wgetExit wcExit) = true := by
  by_cases h : wgetExit = 0 <;>
    simp [iteration, checkConnectivity, h, sessionsWellSequenced, loopInvAux,
      List.countP_cons, isSessionStart, isSessionEnd]

/-- C9: every session-start event in every loop trace advertises exactly the
hostname passed to the loop as its portal ssid: the script invokes
`./wifi-connect --portal-ssid $(hostname)`, and no user-supplied data flows
into that argument — the loop has no user input at all. -/
theorem portal_ssid_is_hostname (hostname : String)
    (inputs : List (Nat × Nat)) :
    (loopTrace hostname inputs).all (startedWithSsid hostname) = true := by
  induction inputs with
  | nil => rfl
  | cons head rest ih =>
      obtain ⟨wgetExit, wcExit⟩ := head
      unfold loopTrace
      rw [List.all_append, ih, Bool.and_true]
      by_cases h : wgetExit = 0 <;>
        simp [iteration, h, startedWithSsid]

end WifiConnect

namespace WifiConnect

/-! ## The script variant shipped next to the Dockerfile

The second copy of the start script records the wifi-connect exit code in
`success` (`success=0` on the online branch, `success=$?` after running
wifi-connect) and sleeps 60 seconds only when `success` is 0:
`if [ $success -eq 0 ]; then sleep 60; fi`. A wifi-connect run that exits
nonzero therefore loops straight back to the next probe with no sleep. -/

/-- One iteration of the Dockerfile-adjacent variant of the loop. -/
def iterationV2 (hostname : String) (wgetExit wcExit : Nat) : List Event :=
  if wgetExit = 0 then
    [Event.probe true, Event.sleep 60]
  else if wcExit = 0 then
    [Event.probe false, Event.sessionStart hostname,
      Event.sessionEnd wcExit, Event.sleep 60]
  else
    [Event.probe false, Event.sessionStart hostname, Event.sessionEnd wcExit]

/-- The trace of the variant loop over a finite list of iteration inputs. -/
def loopTraceV2 (hostname : String) : List (Nat × Nat) → List Event
  | [] => []
  | (wgetExit, wcExit) :: rest =>
      iterationV2 hostname wgetExit wcExit ++ loopTraceV2 hostname rest

/-- C8 counterexample: the claim says that after every session ending Failed
the loop waits a backoff interval before the next probe. In the Dockerfile
variant, two consecutive failed sessions (wget exit 1, wifi-connect exit 1)
produce a trace in which the first session end is immediately followed by
the next probe, with no sleep event anywhere. -/
theorem failed_session_reprobes_immediately :
    loopTraceV2 "gaitq-data-hub" [(1, 1), (1, 1)] =
      [Event.probe false, Event.sessionStart "gaitq-data-hub", Event.sessionEnd 1,
        Event.probe false, Event.sessionStart "gaitq-data-hub", Event.sessionEnd 1]
    ∧ (loopTraceV2 "gaitq-data-hub" [(1, 1), (1, 1)]).countP isSleep = 0 := by
  constructor <;> decide

/-- C8 amended: the primary `start-wifi-connect.sh` sleeps (10 seconds)
after every iteration whatever the outcome; the Dockerfile variant sleeps
(60 seconds) exactly when the probe succeeded or wifi-connect exited 0, and
after a session ending with a nonzero exit code it re-probes immediately
with no backoff. -/
theorem backoff_characterization (hostname : String) (wgetExit wcExit : Nat) :
    (iteration hostname wgetExit wcExit).any isSleep = true
    ∧ (iterationV2 hostname wgetExit wcExit).any isSleep =
        (wgetExit == 0 || wcExit == 0) := by
  by_cases hw : wgetExit = 0 <;> by_cases hc : wcExit = 0 <;>
    simp [iteration, iterationV2, hw, hc, isSleep]

end WifiConnect

namespace WifiConnect

/-! ## The Access-Point Session Manager

The Rust program `wifi-connect` that owns one provisioning session is shipped
as a prebuilt binary (`COPY target/release/wifi-connect` in the Dockerfile);
its source is not among the provided files. Only its design is available, so
the session machine below is modelled from the design document, and the
repository README supplies one further documented fact: its TODO list states
that wifi-connect has no timeout and needs one ("We need a way for
wifi-connect to timeout or a button to stop the program"). -/

/-- Modelled from the spec: the session states of the Access-Point Session
Manager — Scanning, AwaitingSubmission, Applying, and the terminal
Succeeded and Failed. -/
inductive SessionState
  | Scanning
  | AwaitingSubmission
  | Applying
  | Succeeded
  | Failed
  deriving DecidableEq, Repr

/-- Modelled from the spec: one provisioning session — its state, whether
the temporary access point is currently up, and the last error retained for
display. -/
structure Session where
  state : SessionState
  apUp : Bool
  lastError : Option String
  deriving DecidableEq, Repr

/-- Modelled from the spec: the events driving one session — scan outcomes,
access-point start failure, a credential submission, a user rescan request,
the session timeout, and the join outcome reported by the network-join
collaborator. -/
inductive SessionEvent
  | scanOk
  | scanFail (reason : String)
  | apStartFail (reason : String)
  | submit
  | rescan
  | sessionTimeout
  | joinOk
  | joinFail (reason : String)
  deriving DecidableEq, Repr

/-- Modelled from the spec: the session transition function. Scanning brings
up the access point and moves to AwaitingSubmission, or fails the session
tearing the access point down; AwaitingSubmission accepts a submission
(Applying), a rescan (back to Scanning) or the session timeout (Failed with
teardown); Applying moves to Succeeded on join success (teardown) or, on a
failed join, back to Scanning with the access point still up and the error
retained, so the user can retry within the same session; the session
timeout ends the session from any non-terminal state; Succeeded and Failed
are absorbing. -/
def step (s : Session) (e : SessionEvent) : Session :=
  match s.state, e with
  | SessionState.Scanning, SessionEvent.scanOk =>
      { s with state := SessionState.AwaitingSubmission, apUp := true }
  | SessionState.Scanning, SessionEvent.scanFail r =>
      { state := SessionState.Failed, apUp := false, lastError := some r }
  | SessionState.Scanning, SessionEvent.apStartFail r =>
      { state := SessionState.Failed, apUp := false, lastError := some r }
  | SessionState.Scanning, SessionEvent.sessionTimeout =>
      { s with state := SessionState.Failed, apUp := false }
  | SessionState.AwaitingSubmission, SessionEvent.submit =>
      { s with state := SessionState.Applying }
  | SessionState.AwaitingSubmission, SessionEvent.rescan =>
      { s with state := SessionState.Scanning }
  | SessionState.AwaitingSubmission, SessionEvent.sessionTimeout =>
      { state := SessionState.Failed, apUp := false,
        lastError := some "no input received" }
  | SessionState.Applying, SessionEvent.joinOk =>
      { s with state := SessionState.Succeeded, apUp := false }
  | SessionState.Applying, SessionEvent.joinFail r =>
      { state := SessionState.Scanning, apUp := true, lastError := some r }
  | SessionState.Applying, SessionEvent.sessionTimeout =>
      { s with state := SessionState.Failed, apUp := false }
  | _, _ => s

/-- Modelled from the repository README TODO: the shipped wifi-connect has no
session timeout, so with no credential submission the passage of one unit of
time leaves the session unchanged. -/
def noTimeoutTick (s : Session) : Session := s

/-- A session left waiting for the given number of time units with no
credential submission ever arriving, under the documented no-timeout
behaviour. -/
def awaitWithNoSubmission (s : Session) : Nat → Session
  | 0 => s
  | n + 1 => noTimeoutTick (awaitWithNoSubmission s n)

/-- A session that has brought up the access point and is waiting for user
input. -/
def awaitingSession : Session :=
  { state := SessionState.AwaitingSubmission, apUp := true, lastError := none }

end WifiConnect

namespace WifiConnect

/-! ## Claims about the Access-Point Session Manager -/

/-- C4: a failed join attempt does not terminate the provisioning session —
from Applying with the access point up, a join failure returns the session
to Scanning (not a terminal state) with the access point still up and the
error retained, and from there one scan plus one submission reaches Applying
again, all within the same session and without any outer loop restart. -/
theorem failed_join_keeps_session_alive (s : Session) (r : String)
    (hstate : s.state = SessionState.Applying) :
    (step s (SessionEvent.joinFail r)).state = SessionState.Scanning
    ∧ (step s (SessionEvent.joinFail r)).state ≠ SessionState.Succeeded
    ∧ (step s (SessionEvent.joinFail r)).state ≠ SessionState.Failed
    ∧ (step s (SessionEvent.joinFail r)).apUp = true
    ∧ (step s (SessionEvent.joinFail r)).lastError = some r
    ∧ (step (step (step s (SessionEvent.joinFail r)) SessionEvent.scanOk)
        SessionEvent.submit).state = SessionState.Applying := by
  simp [step, hstate]

/-- C4 witness: the theorem applied to the concrete session that is applying
a bad passphrase for the network "Home". -/
theorem failed_join_keeps_session_alive_witness :
    (step { state := SessionState.Applying, apUp := true, lastError := none }
        (SessionEvent.joinFail "invalid-passphrase")).state = SessionState.Scanning
    ∧ (step { state := SessionState.Applying, apUp := true, lastError := none }
        (SessionEvent.joinFail "invalid-passphrase")).state ≠ SessionState.Succeeded
    ∧ (step { state := SessionState.Applying, apUp := true, lastError := none }
        (SessionEvent.joinFail "invalid-passphrase")).state ≠ SessionState.Failed
    ∧ (step { state := SessionState.Applying, apUp := true, lastError := none }
        (SessionEvent.joinFail "invalid-passphrase")).apUp = true
    ∧ (step { state := SessionState.Applying, apUp := true, lastError := none }
        (SessionEvent.joinFail "invalid-passphrase")).lastError =
          some "invalid-passphrase"
    ∧ (step (step (step
          { state := SessionState.Applying, apUp := true, lastError := none }
          (SessionEvent.joinFail "invalid-passphrase")) SessionEvent.scanOk)
        SessionEvent.submit).state = SessionState.Applying :=
  failed_join_keeps_session_alive
    { state := SessionState.Applying, apUp := true, lastError := none }
    "invalid-passphrase" rfl

/-- C5: the claim says a session timeout eventually fires when no submission
is received, tearing down the access point. The repository README documents
the opposite: its TODO states wifi-connect has no timeout mechanism, so a
session awaiting input with no submission stays in AwaitingSubmission with
the access point up for any number of time units — the teardown the design
document prescribes (the `sessionTimeout` transition of `step`, shown in the
last two conjuncts) never happens in the shipped program. -/
theorem no_submission_session_never_times_out (n : Nat) :
    (awaitWithNoSubmission awaitingSession n).state =
        SessionState.AwaitingSubmission
    ∧ (awaitWithNoSubmission awaitingSession n).apUp = true
    ∧ (step awaitingSession SessionEvent.sessionTimeout).state =
        SessionState.Failed
    ∧ (step awaitingSession SessionEvent.sessionTimeout).apUp = false := by
  induction n with
  | zero => exact ⟨rfl, rfl, rfl, rfl⟩
  | succ k ih =>
      exact ⟨ih.1, ih.2.1, rfl, rfl⟩

end WifiConnect
